import Mathlib

/-!
Verification development for the AIEmpires AI service (python repository).

The file shallowly embeds the decision-making core of the service:

* `FactionAgent._parse_decision` and `FactionAgent.make_decision`
  (src/ai_service/agents/faction_agent.py), together with a model of
  `json.loads` and of the pydantic validation performed when a
  `DecisionResponse` is constructed (src/ai_service/models.py);
* the events line of `FactionAgent._build_context`
  (faction_agent.py line 119);
* `LLMProvider.generate_with_retry` (src/ai_service/providers/base.py);
* `create_provider` (src/ai_service/providers/factory.py);
* the usage-normalization fragments of `OllamaProvider.generate` and
  `LMStudioProvider.generate`.

Machine details of the embedding: Python strings are Lean `String` or
`List Char`; Python `dict` objects decoded from JSON are association lists
whose insertion overwrites an existing key, mirroring Python dict
construction; Python exceptions are the `Except`/`Option` error channels;
JSON numbers are kept exact as sign/mantissa/decimal-shift triples tagged
with whether the literal was an integer literal (Python `json` produces
`int` for those, `float` otherwise).
-/

deriving instance DecidableEq for Except

namespace AIEmpires

abbrev Chars := List Char

/-- The character U+007B, written via its code point. -/
def lbrace : Char := Char.ofNat 123

/-- The character U+007D, written via its code point. -/
def rbrace : Char := Char.ofNat 125

/-- JSON values as produced by Python `json.loads`.  A number literal is
kept exact as `num isInt neg mantissa shift`, denoting the value
`(-1 if neg) * mantissa * 10 ^ shift`; `isInt` records whether the literal
had no fraction and no exponent part (Python `json` produces `int` for
those, `float` otherwise).  `nanInf` stands for the non-standard `NaN` /
`Infinity` / `-Infinity` literals that Python `json.loads` accepts by
default. -/
inductive Json where
  | null
  | bool (b : Bool)
  | num (isInt : Bool) (neg : Bool) (mantissa : Nat) (shift : Int)
  | nanInf
  | str (s : String)
  | arr (elems : List Json)
  | obj (fields : List (String × Json))
  deriving Repr, Inhabited

/-- Whitespace stripped by Python `str.strip` (ASCII subset; Python also
strips some Unicode spaces, but stripped end characters can never change
which braces `_parse_decision` selects, so the subset is inessential). -/
def isPyWs (c : Char) : Bool :=
  c = ' ' ∨ c = '\t' ∨ c = '\n' ∨ c = '\r' ∨ c = '\x0b' ∨ c = '\x0c'

/-- Python `str.strip` over the character list. -/
def pyStrip (cs : Chars) : Chars :=
  ((cs.dropWhile isPyWs).reverse.dropWhile isPyWs).reverse

/-- ASCII lowercasing of one character (Python `str.lower`; every key of
the provider registry is ASCII). -/
def pyCharLower (c : Char) : Char :=
  if 'A' ≤ c ∧ c ≤ 'Z' then Char.ofNat (c.toNat + 32) else c

/-- Python `str.lower` (ASCII). -/
def pyLower (s : String) : String := String.mk (s.data.map pyCharLower)

/-- Skip JSON whitespace (space, tab, newline, carriage return), exactly the
whitespace characters the Python `json` scanner skips. -/
def skipWs : Chars → Chars
  | [] => []
  | c :: cs =>
    if c = ' ' ∨ c = '\t' ∨ c = '\n' ∨ c = '\r' then skipWs cs else c :: cs

/-- Numeric value of a decimal digit character. -/
def digitVal (c : Char) : Nat := c.toNat - '0'.toNat

/-- Longest prefix of decimal digits, and the rest of the input. -/
def takeDigits : Chars → (List Char × Chars)
  | [] => ([], [])
  | c :: cs =>
    if c.isDigit then
      let (ds, rest) := takeDigits cs
      (c :: ds, rest)
    else ([], c :: cs)

/-- Value of a big-endian list of decimal digits. -/
def natOfDigits (ds : List Char) : Nat :=
  ds.foldl (fun acc c => 10 * acc + digitVal c) 0

/-- Integer part of a JSON number: `0`, or a nonzero digit followed by
digits (the JSON grammar rejects leading zeros). -/
def parseIntPart : Chars → Option (List Char × Chars)
  | [] => none
  | c :: cs =>
    if c = '0' then some ([c], cs)
    else if c.isDigit then
      let (ds, rest) := takeDigits cs
      some (c :: ds, rest)
    else none

/-- Fraction part: a dot followed by at least one digit; returns the digits.
Produces `some ([], cs)` when no dot is present. -/
def parseFracPart : Chars → Option (List Char × Chars)
  | [] => some ([], [])
  | c :: cs =>
    if c = '.' then
      let (ds, rest) := takeDigits cs
      if ds = [] then none else some (ds, rest)
    else some ([], c :: cs)

/-- Exponent part: `e`/`E`, an optional sign, at least one digit; returns
the signed exponent and whether an exponent was present. -/
def parseExpPart : Chars → Option (Option Int × Chars)
  | [] => some (none, [])
  | c :: cs =>
    if c = 'e' ∨ c = 'E' then
      let (eneg, cs1) :=
        match cs with
        | d :: rest =>
          if d = '-' then (true, rest)
          else if d = '+' then (false, rest)
          else (false, d :: rest)
        | [] => (false, [])
      let (ds, rest) := takeDigits cs1
      if ds = [] then none
      else
        let e : Int := natOfDigits ds
        some (some (if eneg then -e else e), rest)
    else some (none, c :: cs)

/-- Parse a JSON number (or the non-standard `-Infinity`) starting at the
current position, following the Python `json` number grammar
`-?(0|[1-9][0-9]*)(\.[0-9]+)?([eE][+-]?[0-9]+)?`. -/
def parseNumber (cs : Chars) : Option (Json × Chars) :=
  let (neg, cs1) :=
    match cs with
    | c :: rest => if c = '-' then (true, rest) else (false, cs)
    | [] => (false, cs)
  match cs1 with
  | 'I' :: 'n' :: 'f' :: 'i' :: 'n' :: 'i' :: 't' :: 'y' :: rest =>
    if neg then some (Json.nanInf, rest) else none
  | _ =>
    match parseIntPart cs1 with
    | none => none
    | some (ids, cs2) =>
      match parseFracPart cs2 with
      | none => none
      | some (fds, cs3) =>
        match parseExpPart cs3 with
        | none => none
        | some (expo, cs4) =>
          let isInt : Bool := fds = [] ∧ expo = none
          let mantissa : Nat := natOfDigits (ids ++ fds)
          let shift : Int := expo.getD 0 - fds.length
          some (Json.num isInt neg mantissa shift, cs4)

/-- Value of a hexadecimal digit character, if it is one. -/
def hexVal (c : Char) : Option Nat :=
  if c.isDigit then some (digitVal c)
  else if 'a' ≤ c ∧ c ≤ 'f' then some (c.toNat - 'a'.toNat + 10)
  else if 'A' ≤ c ∧ c ≤ 'F' then some (c.toNat - 'A'.toNat + 10)
  else none

/-- Char from a code point; invalid code points (lone surrogates, which
Python strings can hold but Lean `Char` cannot) collapse to NUL.  No theorem
in this file evaluates an input with a lone surrogate escape. -/
def codepointChar (n : Nat) : Char := Char.ofNat n

/-- Combine four hex digit characters into a code unit. -/
def hex4 (a b c d : Char) : Option Nat := do
  let va ← hexVal a
  let vb ← hexVal b
  let vc ← hexVal c
  let vd ← hexVal d
  pure (((va * 16 + vb) * 16 + vc) * 16 + vd)

/-- Body of a JSON string after the opening quote: returns the decoded
characters and the input after the closing quote.  Mirrors the Python
`json` scanner in strict mode: raw control characters below U+0020 are
rejected, the standard escapes and `\uXXXX` (with surrogate-pair
combination) are decoded, everything else after a backslash is an error. -/
def parseStringAux (fuel : Nat) (cs : Chars) : Option (List Char × Chars) :=
  match fuel, cs with
  | 0, _ => none
  | _, [] => none
  | fuel + 1, c :: rest =>
    if c = '\"' then some ([], rest)
    else if c = '\\' then
      match rest with
      | '\"' :: r =>
        (parseStringAux fuel r).map (fun p => ('\"' :: p.1, p.2))
      | '\\' :: r =>
        (parseStringAux fuel r).map (fun p => ('\\' :: p.1, p.2))
      | '/' :: r =>
        (parseStringAux fuel r).map (fun p => ('/' :: p.1, p.2))
      | 'b' :: r =>
        (parseStringAux fuel r).map (fun p => (codepointChar 8 :: p.1, p.2))
      | 'f' :: r =>
        (parseStringAux fuel r).map (fun p => (codepointChar 12 :: p.1, p.2))
      | 'n' :: r =>
        (parseStringAux fuel r).map (fun p => ('\n' :: p.1, p.2))
      | 'r' :: r =>
        (parseStringAux fuel r).map (fun p => ('\r' :: p.1, p.2))
      | 't' :: r =>
        (parseStringAux fuel r).map (fun p => ('\t' :: p.1, p.2))
      | 'u' :: a :: b :: c2 :: d :: r =>
        match hex4 a b c2 d with
        | none => none
        | some n =>
          if 0xD800 ≤ n ∧ n < 0xDC00 then
            match r with
            | '\\' :: 'u' :: a2 :: b2 :: c3 :: d2 :: r2 =>
              match hex4 a2 b2 c3 d2 with
              | none => none
              | some n2 =>
                if 0xDC00 ≤ n2 ∧ n2 < 0xE000 then
                  let combined := 0x10000 + (n - 0xD800) * 0x400 + (n2 - 0xDC00)
                  (parseStringAux fuel r2).map
                    (fun p => (codepointChar combined :: p.1, p.2))
                else
                  (parseStringAux fuel (('\\' : Char) :: 'u' :: a2 :: b2 :: c3 :: d2 :: r2)).map
                    (fun p => (codepointChar n :: p.1, p.2))
            | _ =>
              (parseStringAux fuel r).map (fun p => (codepointChar n :: p.1, p.2))
          else
            (parseStringAux fuel r).map (fun p => (codepointChar n :: p.1, p.2))
      | _ => none
    else if c.toNat < 32 then none
    else (parseStringAux fuel rest).map (fun p => (c :: p.1, p.2))

/-- Insert a key into a decoded object, overwriting an existing binding:
Python dict construction keeps the last occurrence of a duplicated key. -/
def objInsert : List (String × Json) → String → Json → List (String × Json)
  | [], k, v => [(k, v)]
  | (k0, v0) :: rest, k, v =>
    if k0 = k then (k0, v) :: rest else (k0, v0) :: objInsert rest k v

/-- Parser modes for the single fueled JSON scanner (`parseStep`): a mode
either expects one value, or continues an object / array whose members
decoded so far are carried in the accumulator.  The scanner is one
non-mutual function structurally recursive on its fuel so the kernel can
evaluate it on concrete inputs. -/
inductive PMode where
  | value
  | membersStart
  | members (acc : List (String × Json))
  | itemsStart
  | items (acc : List Json)

/-- One JSON scanner step.  In mode `value` it parses one JSON value at the
current position (leading whitespace skipped).  Mode `membersStart` sits
directly after an opening brace: either an immediately closing brace (the
empty object) or a member list with no trailing comma, per the JSON
grammar; `itemsStart`/`items` are the same for arrays. -/
def parseStep : Nat → PMode → Chars → Option (Json × Chars)
  | 0, _, _ => none
  | fuel + 1, PMode.value, cs =>
    match skipWs cs with
    | [] => none
    | c :: rest =>
      if c = lbrace then parseStep fuel PMode.membersStart rest
      else if c = '[' then parseStep fuel PMode.itemsStart rest
      else if c = '\"' then
        (parseStringAux fuel rest).map (fun p => (Json.str (String.mk p.1), p.2))
      else if c = 't' then
        match rest with
        | 'r' :: 'u' :: 'e' :: r => some (Json.bool true, r)
        | _ => none
      else if c = 'f' then
        match rest with
        | 'a' :: 'l' :: 's' :: 'e' :: r => some (Json.bool false, r)
        | _ => none
      else if c = 'n' then
        match rest with
        | 'u' :: 'l' :: 'l' :: r => some (Json.null, r)
        | _ => none
      else if c = 'N' then
        match rest with
        | 'a' :: 'N' :: r => some (Json.nanInf, r)
        | _ => none
      else if c = 'I' then
        match rest with
        | 'n' :: 'f' :: 'i' :: 'n' :: 'i' :: 't' :: 'y' :: r => some (Json.nanInf, r)
        | _ => none
      else if c = '-' ∨ c.isDigit then parseNumber (c :: rest)
      else none
  | fuel + 1, PMode.membersStart, cs =>
    match skipWs cs with
    | c :: rest =>
      if c = rbrace then some (Json.obj [], rest)
      else parseStep fuel (PMode.members []) (c :: rest)
    | [] => none
  | fuel + 1, PMode.members acc, cs =>
    match skipWs cs with
    | c :: rest =>
      if c = '\"' then
        match parseStringAux fuel rest with
        | none => none
        | some (keyChars, afterKey) =>
          match skipWs afterKey with
          | ':' :: afterColon =>
            match parseStep fuel PMode.value afterColon with
            | none => none
            | some (v, afterVal) =>
              let acc2 := objInsert acc (String.mk keyChars) v
              match skipWs afterVal with
              | ',' :: afterComma => parseStep fuel (PMode.members acc2) afterComma
              | d :: afterBrace =>
                if d = rbrace then some (Json.obj acc2, afterBrace) else none
              | [] => none
          | _ => none
      else none
    | [] => none
  | fuel + 1, PMode.itemsStart, cs =>
    match skipWs cs with
    | ']' :: rest => some (Json.arr [], rest)
    | c :: rest => parseStep fuel (PMode.items []) (c :: rest)
    | [] => none
  | fuel + 1, PMode.items acc, cs =>
    match parseStep fuel PMode.value cs with
    | none => none
    | some (v, afterVal) =>
      match skipWs afterVal with
      | ',' :: afterComma => parseStep fuel (PMode.items (acc ++ [v])) afterComma
      | ']' :: afterBracket => some (Json.arr (acc ++ [v]), afterBracket)
      | _ => none

/-- Parse one JSON value at the current position. -/
def parseValue (fuel : Nat) (cs : Chars) : Option (Json × Chars) :=
  parseStep fuel PMode.value cs

/-- Model of Python `json.loads`: parse exactly one JSON value, allowing
surrounding whitespace and nothing else; `none` models `json.JSONDecodeError`.
The fuel bound exceeds the total number of recursive parser calls possible
on the input, since every call site first consumes input characters. -/
def jsonLoads (cs : Chars) : Option Json :=
  match parseValue (4 * cs.length + 8) cs with
  | some (v, rest) => if skipWs rest = [] then some v else none
  | none => none

/-- The `DecisionResponse` pydantic model of src/ai_service/models.py:
action, priority, optional target, reasoning.  The source annotates
`priority : int` with no range constraint and `action : str` with no
enumeration constraint, so the Lean fields carry none either. -/
structure DecisionResponse where
  action : String
  priority : Int
  target : Option String
  reasoning : String
  deriving Repr, DecidableEq

/-- Python `dict.get` on a decoded JSON object (first match suffices since
`objInsert` keeps keys unique). -/
def dictGet (fields : List (String × Json)) (k : String) : Option Json :=
  match fields with
  | [] => none
  | (k0, v) :: rest => if k0 = k then some v else dictGet rest k

/-- Model of pydantic (v2, lax mode) validation of a `str` field against a
JSON-decoded value: only a decoded string validates. -/
def valStr : Json → Option String
  | Json.str s => some s
  | _ => none

/-- Lax string-to-int coercion: surrounding whitespace, an optional sign,
then at least one digit. -/
def parseIntLiteral (s : String) : Option Int :=
  let cs := pyStrip s.data
  let (neg, ds) :=
    match cs with
    | c :: rest =>
      if c = '-' then (true, rest)
      else if c = '+' then (false, rest)
      else (false, c :: rest)
    | [] => (false, [])
  if ds ≠ [] ∧ ds.all Char.isDigit then
    let n : Int := natOfDigits ds
    some (if neg then -n else n)
  else none

/-- The integer value of a decoded JSON number, when its exact value is
integral: `(-1 if neg) * mantissa * 10 ^ shift` (for an int literal the
shift is 0, so this is the identity on its value). -/
def numToInt (neg : Bool) (mantissa : Nat) (shift : Int) : Option Int :=
  match shift with
  | Int.ofNat k =>
    let v : Int := (mantissa : Int) * (10 : Int) ^ k
    some (if neg then -v else v)
  | Int.negSucc k =>
    let d : Nat := 10 ^ (k + 1)
    if mantissa % d = 0 then
      let v : Int := (mantissa / d : Nat)
      some (if neg then -v else v)
    else none

/-- Model of pydantic (v2, lax mode) validation of an `int` field against a
JSON-decoded value: a decoded int passes (identity), a decoded float passes
when its value is integral (pydantic coerces such floats), a numeric string
is coerced, everything else fails. -/
def valInt : Json → Option Int
  | Json.num _ neg mantissa shift => numToInt neg mantissa shift
  | Json.str s => parseIntLiteral s
  | _ => none

/-- Model of pydantic validation of an `Optional[str]` field: JSON null and
strings validate. -/
def valOptStr : Json → Option (Option String)
  | Json.null => some none
  | Json.str s => some (some s)
  | _ => none

/-- Construction of `DecisionResponse` from the decoded dict, as written at
faction_agent.py lines 166-171: each field read with `data.get` and its
source default, then validated by pydantic.  A validation failure is the
pydantic `ValidationError`, which the surrounding `except
json.JSONDecodeError` clause of `_parse_decision` does not catch. -/
def mkDecisionResponse (data : List (String × Json)) : Except String DecisionResponse :=
  match valStr ((dictGet data "action").getD (Json.str "none")),
        valInt ((dictGet data "priority").getD (Json.num true false 5 0)),
        valOptStr ((dictGet data "target").getD Json.null),
        valStr ((dictGet data "reasoning").getD (Json.str "No reasoning provided")) with
  | some a, some p, some t, some r => Except.ok ⟨a, p, t, r⟩
  | _, _, _, _ =>
    Except.error "ValidationError: invalid field value for DecisionResponse"

/-- Python `str.find` for a single character: index of the first occurrence
or -1. -/
def pyFind (cs : Chars) (c : Char) : Int :=
  match cs.findIdx? (fun x => x = c) with
  | some i => (i : Int)
  | none => -1

/-- Python `str.rfind` for a single character: index of the last occurrence
or -1. -/
def pyRfind (cs : Chars) (c : Char) : Int :=
  match cs.reverse.findIdx? (fun x => x = c) with
  | some j => ((cs.length - 1 - j : Nat) : Int)
  | none => -1

/-- The fixed fallback decision of `_parse_decision`
(faction_agent.py lines 176-181). -/
def parseFallback : DecisionResponse :=
  ⟨"defend", 5, none, "Could not parse AI response, defaulting to defensive posture"⟩

/-- Embedding of `FactionAgent._parse_decision`
(faction_agent.py lines 152-181).  The input is stripped; the slice from
the first opening brace to the last closing brace is decoded with
`json.loads`; a `json.JSONDecodeError` (and the no-braces case) falls
through to the fixed fallback; a pydantic `ValidationError` raised while
constructing the `DecisionResponse` is NOT caught and propagates, modelled
by `Except.error`.  (The slice always starts with an opening brace, so a
successful decode is always an object; the non-object arm is unreachable
and modelled as a propagating error.) -/
def parse_decision (response_text : String) : Except String DecisionResponse :=
  let text := pyStrip response_text.data
  let start := pyFind text lbrace
  let stop := pyRfind text rbrace + 1
  if 0 ≤ start ∧ start < stop then
    let json_str := (text.drop start.toNat).take (stop - start).toNat
    match jsonLoads json_str with
    | none => Except.ok parseFallback
    | some (Json.obj data) => mkDecisionResponse data
    | some _ => Except.error "AttributeError: decoded JSON value is not an object"
  else Except.ok parseFallback

/-- The fallback decision built in the `except` clause of `make_decision`
(faction_agent.py lines 54-59), with the stringified exception as cause. -/
def errorFallback (cause : String) : DecisionResponse :=
  ⟨"defend", 5, none, "Fallback decision due to error: " ++ cause⟩

/-- Embedding of `FactionAgent.make_decision`
(faction_agent.py lines 27-59).  The outcome of the Anthropic API call is
the input: `Except.error e` models any exception raised while generating
(the stringified exception is `e`), `Except.ok text` models a successful
generation returning `text`.  The body runs inside `try ... except
Exception`, so a `ValidationError` escaping `_parse_decision` is also
caught and converted to the error fallback.  Totality of this function is
the never-raises guarantee. -/
def make_decision (llmOutcome : Except String String) : DecisionResponse :=
  match llmOutcome with
  | Except.error e => errorFallback e
  | Except.ok text =>
    match parse_decision text with
    | Except.ok d => d
    | Except.error e => errorFallback e

/-- The six actions the spec's `DecisionResponse` admits. -/
def actionSet : List String := ["attack", "defend", "raid", "diplomacy", "build", "none"]

/-- Embedding of the recent-events line of `FactionAgent._build_context`
(faction_agent.py line 119):
`"\n".join(f"- ..." for e in request.recentEvents[:5]) or "None"`.
Python `or` yields "None" exactly when the join is empty. -/
def recentEventsText (recentEvents : List String) : String :=
  let joined := String.intercalate "\n" ((recentEvents.take 5).map (fun e => "- " ++ e))
  if joined = "" then "None" else joined

/-- This definition follows the spec's words, not the source, for the
refinement comparison of claim C9: the context shows "the 5 most recent
events", i.e. the LAST five entries of the chronological list. -/
def recentEventsTextSpec (recentEvents : List String) : String :=
  let lastFive := recentEvents.drop (recentEvents.length - 5)
  let joined := String.intercalate "\n" (lastFive.map (fun e => "- " ++ e))
  if joined = "" then "None" else joined

/-- Observable outcome of one `generate_with_retry` run: the returned value
(`none` models Python `None`), the total seconds slept, and how many times
`generate` was called. -/
structure RetryOutcome (R : Type) where
  result : Option R
  totalSleep : Nat
  calls : Nat
  deriving Repr, DecidableEq

/-- The retry loop of `LLMProvider.generate_with_retry`
(base.py lines 107-118) from a given attempt index with a given number of
remaining iterations.  `gen a` is the outcome of calling `self.generate`
on attempt `a` (0-based, as in `range`): `Except.ok` returns immediately,
`Except.error` models a raised exception, after which the code sleeps
`1 * (attempt + 1)` seconds unless this was the final attempt. -/
def retryFromAttempt {E R : Type} (gen : Nat → Except E R) (retry_attempts : Nat) :
    Nat → Nat → RetryOutcome R
  | _, 0 => ⟨none, 0, 0⟩
  | attempt, remaining + 1 =>
    match gen attempt with
    | Except.ok res => ⟨some res, 0, 1⟩
    | Except.error _ =>
      let sleepHere := if attempt < retry_attempts - 1 then 1 * (attempt + 1) else 0
      let rest := retryFromAttempt gen retry_attempts (attempt + 1) remaining
      ⟨rest.result, sleepHere + rest.totalSleep, 1 + rest.calls⟩

/-- Embedding of `LLMProvider.generate_with_retry` (base.py lines 96-118):
`for attempt in range(self.config.retry_attempts)`, returning the first
success, else `None` after the loop. -/
def generate_with_retry {E R : Type} (gen : Nat → Except E R) (retry_attempts : Nat) :
    RetryOutcome R :=
  retryFromAttempt gen retry_attempts 0 retry_attempts

/-- The provider kinds (one per backend family registered in factory.py). -/
inductive ProviderKind where
  | anthropic
  | openai
  | ollama
  | groq
  | lmstudio
  deriving Repr, DecidableEq

/-- The `ProviderConfig` dataclass of base.py lines 25-35. -/
structure ProviderConfig where
  provider : String
  model : String
  api_key : Option String := none
  endpoint : Option String := none
  temperature : ℚ := ⟨7, 10, by norm_num, by norm_num⟩
  max_tokens : Int := 1024
  timeout : Int := 30
  retry_attempts : Nat := 3
  deriving Repr, DecidableEq

/-- Association-list lookup with string keys (Python dict membership and
subscription for the literal dicts of factory.py). -/
def lookupStr {α : Type} : List (String × α) → String → Option α
  | [], _ => none
  | (k0, v) :: rest, k => if k0 = k then some v else lookupStr rest k

/-- The `PROVIDERS` registry of factory.py lines 19-28, with the class
values abstracted to provider kinds. -/
def PROVIDERS : List (String × ProviderKind) :=
  [("anthropic", ProviderKind.anthropic),
   ("claude", ProviderKind.anthropic),
   ("openai", ProviderKind.openai),
   ("gpt", ProviderKind.openai),
   ("ollama", ProviderKind.ollama),
   ("groq", ProviderKind.groq),
   ("lmstudio", ProviderKind.lmstudio),
   ("lm-studio", ProviderKind.lmstudio)]

/-- The `DEFAULT_MODELS` table of factory.py lines 31-37. -/
def DEFAULT_MODELS : List (String × String) :=
  [("anthropic", "claude-sonnet-4-20250514"),
   ("openai", "gpt-4o-mini"),
   ("ollama", "llama3.1"),
   ("groq", "llama-3.1-70b-versatile"),
   ("lmstudio", "local-model")]

/-- Embedding of `create_provider` (factory.py lines 40-77).  The Python
function mutates `config.model` in place when it is empty (line 74) and
passes the same object to the provider constructor; the Lean embedding
passes state explicitly, returning the provider kind together with the
state of the config object after the call.  `Except.error` models the
`ValueError` for an unknown provider.  Python `str.lower` is modelled by
`String.toLower`; all registered names are ASCII. -/
def create_provider (config : ProviderConfig) :
    Except String (ProviderKind × ProviderConfig) :=
  let provider_name := pyLower config.provider
  match lookupStr PROVIDERS provider_name with
  | none => Except.error ("Unknown provider: " ++ config.provider)
  | some kind =>
    if config.model = "" then
      let base_name :=
        if provider_name = "claude" then "anthropic"
        else if provider_name = "gpt" then "openai"
        else if provider_name = "lm-studio" then "lmstudio"
        else provider_name
      Except.ok (kind, { config with model := (lookupStr DEFAULT_MODELS base_name).getD "" })
    else Except.ok (kind, config)

/-- This definition follows the spec's words, not the source, for the
registration test of claim C6: alias resolution maps "claude" to
anthropic, "gpt" to openai, "lm-studio" to lmstudio. -/
def resolveAlias (s : String) : String :=
  if s = "claude" then "anthropic"
  else if s = "gpt" then "openai"
  else if s = "lm-studio" then "lmstudio"
  else s

/-- The registered (non-alias) provider kinds, as the spec lists them. -/
def registeredKinds : List String :=
  ["anthropic", "openai", "ollama", "groq", "lmstudio"]

/-- The vendor usage object of an LM Studio (OpenAI-compatible) chat
completion, as read by `LMStudioProvider.generate`: each counter may be
absent (`getattr` default 0). -/
structure LMStudioVendorUsage where
  prompt_tokens : Option Int
  completion_tokens : Option Int
  deriving Repr, DecidableEq

/-- Usage normalization of `OllamaProvider.generate`
(ollama_provider.py lines 72-75): both keys always emitted,
`data.get(..., 0)` defaulting absent vendor fields to 0. -/
def ollamaUsage (prompt_eval_count eval_count : Option Int) : List (String × Int) :=
  [("input_tokens", prompt_eval_count.getD 0),
   ("output_tokens", eval_count.getD 0)]

/-- Usage normalization of `LMStudioProvider.generate`
(lmstudio_provider.py lines 64-70): `usage = ` the empty dict, then the two
keys are set only when the response carries a (truthy) usage object; the
input `none` models a vendor reply whose usage attribute is absent or
falsy. -/
def lmstudioUsage (vendorUsage : Option LMStudioVendorUsage) : List (String × Int) :=
  match vendorUsage with
  | none => []
  | some u =>
    [("input_tokens", u.prompt_tokens.getD 0),
     ("output_tokens", u.completion_tokens.getD 0)]

section Theorems

/-- Auxiliary lemma for the retry loop: if the stub fails on the `k`
attempts starting at `a` and succeeds on attempt `a + k`, the loop started
at `a` with enough remaining iterations returns that success, sleeping
`a + j + 1` seconds after the j-th failure (all failures are non-final
attempts since `a + k < n`), and calling `generate` `k + 1` times. -/
theorem retryFromAttempt_ok {E R : Type} (gen : Nat → Except E R) (n : Nat) (r : R)
    (err : Nat → E) (k : Nat) :
    ∀ (a rem : Nat), k < rem → a + k < n →
      (∀ j, j < k → gen (a + j) = Except.error (err (a + j))) →
      gen (a + k) = Except.ok r →
      retryFromAttempt gen n a rem =
        ⟨some r, ∑ j in Finset.range k, (a + j + 1), k + 1⟩ := by
  induction k with
  | zero =>
    intro a rem hk hn hfail hok
    obtain ⟨m, rfl⟩ : ∃ m, rem = m + 1 := ⟨rem - 1, by omega⟩
    rw [Nat.add_zero] at hok
    simp [retryFromAttempt, hok]
  | succ k ih =>
    intro a rem hk hn hfail hok
    obtain ⟨m, rfl⟩ : ∃ m, rem = m + 1 := ⟨rem - 1, by omega⟩
    have h0 : gen a = Except.error (err a) := by
      simpa using hfail 0 (Nat.succ_pos k)
    have ihs := ih (a + 1) m (by omega) (by omega)
      (fun j hj => by
        have := hfail (j + 1) (by omega)
        simpa [Nat.add_comm, Nat.add_left_comm, Nat.add_assoc] using this)
      (by
        have : a + 1 + k = a + (k + 1) := by omega
        rw [this]
        exact hok)
    have ha : a < n - 1 := by omega
    simp only [retryFromAttempt, h0, ihs, if_pos ha, RetryOutcome.mk.injEq]
    refine ⟨trivial, ?_, by omega⟩
    rw [Finset.sum_range_succ']
    have hterm : ∀ j, a + 1 + j + 1 = a + (j + 1) + 1 := fun j => by omega
    rw [Finset.sum_congr rfl (fun j _ => hterm j)]
    omega

/-- Auxiliary lemma for the retry loop: if every attempt fails, the loop
returns `none` after calling `generate` once per remaining iteration. -/
theorem retryFromAttempt_all_fail {E R : Type} (gen : Nat → Except E R) (n : Nat)
    (err : Nat → E) (hfail : ∀ j, gen j = Except.error (err j)) :
    ∀ (rem a : Nat), (retryFromAttempt gen n a rem).result = none ∧
      (retryFromAttempt gen n a rem).calls = rem := by
  intro rem
  induction rem with
  | zero => intro a; simp [retryFromAttempt]
  | succ m ih =>
    intro a
    have := ih (a + 1)
    simp [retryFromAttempt, hfail a, this.1, this.2, Nat.add_comm]

/-- Claim C4: with a provider stub that fails the first `k < retryAttempts`
attempts and then succeeds, `generate_with_retry` returns the successful
response, the total sleep is `1 + 2 + ... + k` seconds (one linear-backoff
sleep of `attempt + 1` seconds after each failed attempt, none of which is
the final attempt), and `generate` is called `k + 1` times. -/
theorem C4_retry_backoff {E R : Type} (gen : Nat → Except E R) (n k : Nat)
    (err : Nat → E) (r : R) (hk : k < n)
    (hfail : ∀ j, j < k → gen j = Except.error (err j))
    (hok : gen k = Except.ok r) :
    generate_with_retry gen n = ⟨some r, ∑ j in Finset.range k, (j + 1), k + 1⟩ := by
  have h := retryFromAttempt_ok gen n r err k 0 n hk (by omega)
    (fun j hj => by simpa using hfail j hj) (by simpa using hok)
  simpa [generate_with_retry] using h

/-- Witness for C4 at a concrete stub: two failures then success with
`retryAttempts = 3`; the sleep total is `1 + 2 = 3` and `generate` ran
3 times. -/
theorem C4_retry_backoff_witness :
    generate_with_retry (fun i => if i < 2 then Except.error "boom" else Except.ok "resp") 3 =
      ⟨some "resp", 3, 3⟩ := by
  have h := C4_retry_backoff (fun i => if i < 2 then Except.error "boom" else Except.ok "resp")
    3 2 (fun _ => "boom") "resp" (by decide) (by decide) (by decide)
  simpa [Finset.sum_range_succ] using h

/-- Claim C5: with a provider stub that always fails, `generate_with_retry`
calls `generate` exactly `retryAttempts` times, then returns `None` (the
loop swallows every exception, so nothing escapes). -/
theorem C5_retry_exhaustion {E R : Type} (gen : Nat → Except E R) (n : Nat)
    (err : Nat → E) (hfail : ∀ j, gen j = Except.error (err j)) :
    (generate_with_retry gen n).result = none ∧
      (generate_with_retry gen n).calls = n := by
  have h := retryFromAttempt_all_fail gen n err hfail n 0
  simpa [generate_with_retry] using h

/-- Witness for C5 at a concrete always-failing stub with
`retryAttempts = 3`. -/
theorem C5_retry_exhaustion_witness :
    (generate_with_retry (fun _ => (Except.error "boom" : Except String String)) 3).result = none ∧
    (generate_with_retry (fun _ => (Except.error "boom" : Except String String)) 3).calls = 3 :=
  C5_retry_exhaustion (fun _ => (Except.error "boom" : Except String String)) 3
    (fun _ => "boom") (fun _ => rfl)

/-- Counterexample to claim C1 as stated: when the model replies with a
well-formed JSON object whose action is outside the six-value set and whose
priority is outside 1..10, `make_decision` returns that response verbatim —
`_parse_decision` reads `action` and `priority` from the decoded dict with
no range or enumeration check, and the pydantic model declares them as bare
`str` / `int`. -/
theorem C1_counterexample :
    make_decision
        (Except.ok "\x7b\"action\":\"explode\",\"priority\":99,\"target\":null,\"reasoning\":\"r\"\x7d") =
      ⟨"explode", 99, none, "r"⟩ ∧
    "explode" ∉ actionSet ∧ ¬((99 : Int) ≤ 10) := by decide

/-- Claim C1 as amended: `make_decision` is total (exactly one
DecisionResponse per call, no exception propagates — both generation
failure and a parse-time `ValidationError` are caught by its blanket
`except` clause), and every response is either in range (action among the
six, priority in 1..10: the case of the two fallback constructors) or the
verbatim successfully-parsed model output, which C1_counterexample shows
can lie outside both ranges. -/
theorem C1_decide_response_shape (llm : Except String String) :
    ((make_decision llm).action ∈ actionSet ∧
      1 ≤ (make_decision llm).priority ∧ (make_decision llm).priority ≤ 10) ∨
    (∃ text d, llm = Except.ok text ∧ parse_decision text = Except.ok d ∧
      make_decision llm = d) := by
  cases llm with
  | error e =>
    left
    refine ⟨?_, ?_, ?_⟩ <;> simp [make_decision, errorFallback, actionSet]
  | ok text =>
    cases hp : parse_decision text with
    | ok d =>
      right
      exact ⟨text, d, rfl, hp, by simp [make_decision, hp]⟩
    | error e =>
      left
      refine ⟨?_, ?_, ?_⟩ <;> simp [make_decision, hp, errorFallback, actionSet]

/-- Claim C2 (code bug): `_parse_decision` catches only
`json.JSONDecodeError`, so decode failures (no braces, malformed JSON
inside the braces) do return the fixed defensive fallback — but when the
braces decode to an object whose field value fails pydantic validation
(here a non-numeric string for the `int` field `priority`), the
`ValidationError` raised by the `DecisionResponse` constructor propagates
out of `_parse_decision`, contradicting the contract that it never
raises. -/
theorem C2_parse_type_invalid_raises :
    parse_decision "no json here" = Except.ok parseFallback ∧
    parse_decision "\x7b\"not valid" = Except.ok parseFallback ∧
    parse_decision "x\x7b\"a\": \x7dz" = Except.ok parseFallback ∧
    parse_decision "\x7b\"priority\": \"not-a-number\"\x7d" =
      Except.error "ValidationError: invalid field value for DecisionResponse" := by
  decide

/-- Claim C3: on a successful decode, `_parse_decision` takes the substring
from the first opening brace to the last closing brace (tolerating
surrounding commentary) and fills absent fields with their defaults —
the two concrete examples of the spec evaluate as claimed, and any decoded
object with all four fields absent yields exactly
action "none", priority 5, target null, reasoning "No reasoning provided". -/
theorem C3_parse_extraction_defaults :
    parse_decision
        "Some text \x7b\"action\":\"attack\",\"priority\":8,\"target\":\"Terra\",\"reasoning\":\"test\"\x7dtrailing" =
      Except.ok ⟨"attack", 8, some "Terra", "test"⟩ ∧
    parse_decision "\x7b\"action\":\"raid\"\x7d" =
      Except.ok ⟨"raid", 5, none, "No reasoning provided"⟩ ∧
    ∀ data : List (String × Json),
      dictGet data "action" = none → dictGet data "priority" = none →
      dictGet data "target" = none → dictGet data "reasoning" = none →
      mkDecisionResponse data = Except.ok ⟨"none", 5, none, "No reasoning provided"⟩ := by
  refine ⟨by decide, by decide, fun data h1 h2 h3 h4 => ?_⟩
  simp only [mkDecisionResponse, h1, h2, h3, h4]
  decide

/-- Witness for the universally quantified part of C3: a decoded object
with none of the four fields present gets all four defaults. -/
theorem C3_parse_extraction_defaults_witness :
    mkDecisionResponse [("foo", Json.null)] =
      Except.ok ⟨"none", 5, none, "No reasoning provided"⟩ :=
  C3_parse_extraction_defaults.2.2 [("foo", Json.null)] rfl rfl rfl rfl

/-- Counterexample to claim C9 as stated: the context builder renders
`request.recentEvents[:5]` — the FIRST five entries — while the claim (and
the spec's "5 most recent events" over a chronological, oldest-first list)
requires the LAST five; on a six-event list the two disagree and the most
recent event e6 is the one dropped. -/
theorem C9_counterexample :
    recentEventsText ["e1", "e2", "e3", "e4", "e5", "e6"] =
      "- e1\n- e2\n- e3\n- e4\n- e5" ∧
    recentEventsTextSpec ["e1", "e2", "e3", "e4", "e5", "e6"] =
      "- e2\n- e3\n- e4\n- e5\n- e6" ∧
    recentEventsText ["e1", "e2", "e3", "e4", "e5", "e6"] ≠
      recentEventsTextSpec ["e1", "e2", "e3", "e4", "e5", "e6"] := by
  decide

/-- Claim C9 as amended: the context's events block shows exactly the first
5 entries of `recentEvents`, silently ignoring everything after them (under
the chronological ordering these are the 5 oldest, not the 5 most
recent). -/
theorem C9_truncates_to_first_five :
    (∀ l : List String, recentEventsText l = recentEventsText (l.take 5)) ∧
    recentEventsText ["e1", "e2", "e3", "e4", "e5", "e6"] =
      recentEventsText ["e1", "e2", "e3", "e4", "e5"] := by
  refine ⟨fun l => ?_, by decide⟩
  simp [recentEventsText, List.take_take]

/-- Claim C10: `make_decision` never raises to its caller — when generation
fails with any exception, it returns the fallback whose reasoning is
"Fallback decision due to error: " followed by the stringified cause; when
generation succeeds and the parser returns a result, `make_decision`
returns exactly the parser's result for the raw text (and even if the
parser itself raises, the blanket `except` converts that into the same
error fallback). -/
theorem C10_decide_error_handling :
    (∀ e : String, make_decision (Except.error e) =
      ⟨"defend", 5, none, "Fallback decision due to error: " ++ e⟩) ∧
    (∀ text d, parse_decision text = Except.ok d →
      make_decision (Except.ok text) = d) ∧
    (∀ text e, parse_decision text = Except.error e →
      make_decision (Except.ok text) =
        ⟨"defend", 5, none, "Fallback decision due to error: " ++ e⟩) := by
  refine ⟨fun e => rfl, fun text d h => ?_, fun text e h => ?_⟩ <;>
    simp [make_decision, h, errorFallback]

/-- Witness for C10 at concrete inputs: a failed generation produces the
error fallback, and a parsed decision is returned verbatim. -/
theorem C10_decide_error_handling_witness :
    make_decision (Except.error "connection timeout") =
      ⟨"defend", 5, none, "Fallback decision due to error: " ++ "connection timeout"⟩ ∧
    make_decision (Except.ok "\x7b\"action\":\"build\",\"priority\":2,\"reasoning\":\"expand\"\x7d") =
      ⟨"build", 2, none, "expand"⟩ :=
  ⟨C10_decide_error_handling.1 "connection timeout",
   C10_decide_error_handling.2.1 _ _ (by decide)⟩

/-- The registry lookup fails exactly when the name is none of the eight
registered keys (five kinds plus three aliases). -/
theorem lookupStr_PROVIDERS_none_iff (s : String) :
    lookupStr PROVIDERS s = none ↔
      (¬ s = "anthropic" ∧ ¬ s = "claude" ∧ ¬ s = "openai" ∧ ¬ s = "gpt" ∧
       ¬ s = "ollama" ∧ ¬ s = "groq" ∧ ¬ s = "lmstudio" ∧ ¬ s = "lm-studio") := by
  by_cases h1 : s = "anthropic"
  · subst h1; decide
  by_cases h2 : s = "claude"
  · subst h2; decide
  by_cases h3 : s = "openai"
  · subst h3; decide
  by_cases h4 : s = "gpt"
  · subst h4; decide
  by_cases h5 : s = "ollama"
  · subst h5; decide
  by_cases h6 : s = "groq"
  · subst h6; decide
  by_cases h7 : s = "lmstudio"
  · subst h7; decide
  by_cases h8 : s = "lm-studio"
  · subst h8; decide
  simp only [PROVIDERS, lookupStr]
  rw [if_neg (fun he => h1 he.symm), if_neg (fun he => h2 he.symm),
    if_neg (fun he => h3 he.symm), if_neg (fun he => h4 he.symm),
    if_neg (fun he => h5 he.symm), if_neg (fun he => h6 he.symm),
    if_neg (fun he => h7 he.symm), if_neg (fun he => h8 he.symm)]
  exact iff_of_true rfl ⟨h1, h2, h3, h4, h5, h6, h7, h8⟩

/-- The spec's registration test agrees: a name is, after alias resolution,
outside the registered kinds exactly when it is none of the eight keys. -/
theorem resolveAlias_not_registered_iff (s : String) :
    resolveAlias s ∉ registeredKinds ↔
      (¬ s = "anthropic" ∧ ¬ s = "claude" ∧ ¬ s = "openai" ∧ ¬ s = "gpt" ∧
       ¬ s = "ollama" ∧ ¬ s = "groq" ∧ ¬ s = "lmstudio" ∧ ¬ s = "lm-studio") := by
  by_cases h1 : s = "anthropic"
  · subst h1; decide
  by_cases h2 : s = "claude"
  · subst h2; decide
  by_cases h3 : s = "openai"
  · subst h3; decide
  by_cases h4 : s = "gpt"
  · subst h4; decide
  by_cases h5 : s = "ollama"
  · subst h5; decide
  by_cases h6 : s = "groq"
  · subst h6; decide
  by_cases h7 : s = "lmstudio"
  · subst h7; decide
  by_cases h8 : s = "lm-studio"
  · subst h8; decide
  simp only [resolveAlias, if_neg h2, if_neg h4, if_neg h8, registeredKinds]
  refine iff_of_true ?_ ⟨h1, h2, h3, h4, h5, h6, h7, h8⟩
  intro hmem
  simp only [List.mem_cons, List.not_mem_nil, or_false] at hmem
  rcases hmem with he | he | he | he | he
  · exact h1 he
  · exact h3 he
  · exact h5 he
  · exact h6 he
  · exact h7 he

/-- A successful registry lookup means the name is one of the eight keys. -/
theorem lookupStr_PROVIDERS_some_cases (s : String) (k : ProviderKind)
    (h : lookupStr PROVIDERS s = some k) :
    s = "anthropic" ∨ s = "claude" ∨ s = "openai" ∨ s = "gpt" ∨ s = "ollama" ∨
      s = "groq" ∨ s = "lmstudio" ∨ s = "lm-studio" := by
  by_contra hall
  push_neg at hall
  obtain ⟨h1, h2, h3, h4, h5, h6, h7, h8⟩ := hall
  rw [(lookupStr_PROVIDERS_none_iff s).mpr ⟨h1, h2, h3, h4, h5, h6, h7, h8⟩] at h
  cases h

/-- Claim C6: `create_provider` raises its `ValueError` exactly when the
lowercased provider kind is, after alias resolution, not registered; for
every registered kind an empty `config.model` is replaced by the static
per-provider default before construction, so the constructed provider's
config never carries an empty model; and in particular a "claude" config
with empty model yields the Anthropic provider kind with its default model
populated. -/
theorem C6_factory_contract (config : ProviderConfig) :
    ((∃ msg, create_provider config = Except.error msg) ↔
      resolveAlias (pyLower config.provider) ∉ registeredKinds) ∧
    (∀ k c2, create_provider config = Except.ok (k, c2) → c2.model ≠ "") ∧
    create_provider { provider := "claude", model := "" } =
      Except.ok (ProviderKind.anthropic,
        { provider := "claude", model := "claude-sonnet-4-20250514" }) := by
  refine ⟨?_, ?_, by decide⟩
  · rw [resolveAlias_not_registered_iff, ← lookupStr_PROVIDERS_none_iff]
    unfold create_provider
    cases hl : lookupStr PROVIDERS (pyLower config.provider) with
    | none => simp [hl]
    | some k => by_cases hm : config.model = "" <;> simp [hl, hm]
  · intro k c2 hok
    unfold create_provider at hok
    dsimp only at hok
    generalize hgen : pyLower config.provider = s at hok
    cases hl : lookupStr PROVIDERS s with
    | none => simp [hl] at hok
    | some k2 =>
      by_cases hm : config.model = ""
      · simp only [hl, if_pos hm, Except.ok.injEq, Prod.mk.injEq] at hok
        rw [← hok.2]
        rcases lookupStr_PROVIDERS_some_cases s k2 hl with
          hs | hs | hs | hs | hs | hs | hs | hs <;> subst hs <;> dsimp only <;> decide
      · simp only [hl, if_neg hm, Except.ok.injEq, Prod.mk.injEq] at hok
        rw [← hok.2]
        exact hm

/-- Witness for C6: applying the model-never-empty part at the "claude"
config with empty model shows the constructed config's model is
non-empty. -/
theorem C6_factory_contract_witness :
    ProviderConfig.model { provider := "claude", model := "claude-sonnet-4-20250514" } ≠ "" :=
  (C6_factory_contract { provider := "claude", model := "" }).2.1
    ProviderKind.anthropic { provider := "claude", model := "claude-sonnet-4-20250514" }
    (by decide)

/-- Counterexample to claim C7 as stated: `create_provider` assigns
`config.model` in place (factory.py line 74) when the model is empty.  In
the embedding the second component of the returned pair is the state of
the very config object that was passed in, after the call: for the
"claude" config with empty model that state has a different `model` field
than the object had before the call, so a field of a constructed
ProviderConfig was modified. -/
theorem C7_counterexample :
    create_provider { provider := "claude", model := "" } =
      Except.ok (ProviderKind.anthropic,
        { provider := "claude", model := "claude-sonnet-4-20250514" }) ∧
    ProviderConfig.model { provider := "claude", model := "" } ≠
      ProviderConfig.model { provider := "claude", model := "claude-sonnet-4-20250514" } := by
  decide

/-- Claim C7 as amended: the factory's mutation is confined to the `model`
field — every other field of the passed ProviderConfig is unchanged by
`create_provider`, and when `config.model` is non-empty the config is not
modified at all. -/
theorem C7_amended_mutation_confined (config : ProviderConfig) (k : ProviderKind)
    (c2 : ProviderConfig) (hok : create_provider config = Except.ok (k, c2)) :
    c2.provider = config.provider ∧ c2.api_key = config.api_key ∧
    c2.endpoint = config.endpoint ∧ c2.temperature = config.temperature ∧
    c2.max_tokens = config.max_tokens ∧ c2.timeout = config.timeout ∧
    c2.retry_attempts = config.retry_attempts ∧
    (config.model ≠ "" → c2 = config) := by
  unfold create_provider at hok
  dsimp only at hok
  cases hl : lookupStr PROVIDERS (pyLower config.provider) with
  | none => simp [hl] at hok
  | some k2 =>
    by_cases hm : config.model = ""
    · simp only [hl, if_pos hm, Except.ok.injEq, Prod.mk.injEq] at hok
      rw [← hok.2]
      exact ⟨rfl, rfl, rfl, rfl, rfl, rfl, rfl, fun hne => absurd hm hne⟩
    · simp only [hl, if_neg hm, Except.ok.injEq, Prod.mk.injEq] at hok
      rw [← hok.2]
      exact ⟨rfl, rfl, rfl, rfl, rfl, rfl, rfl, fun _ => rfl⟩

/-- Witness for the amended C7: a config with a non-empty model passes
through `create_provider` unchanged. -/
theorem C7_amended_mutation_confined_witness :
    ({ provider := "ollama", model := "llama3.1" } : ProviderConfig) =
      { provider := "ollama", model := "llama3.1" } :=
  (C7_amended_mutation_confined { provider := "ollama", model := "llama3.1" }
    ProviderKind.ollama { provider := "ollama", model := "llama3.1" }
    (by decide)).2.2.2.2.2.2.2 (by decide)

/-- Counterexample to claim C8 as stated: when the LM Studio vendor reply
carries no (truthy) usage object, `LMStudioProvider.generate` leaves
`usage` as the empty dict — the returned mapping has NEITHER of the two
keys, instead of normalizing the missing fields to 0. -/
theorem C8_counterexample :
    lookupStr (lmstudioUsage none) "input_tokens" = none ∧
    lookupStr (lmstudioUsage none) "output_tokens" = none := by decide

/-- Claim C8 as amended: Ollama's normalization always emits both keys,
defaulting each absent vendor count to 0, and the values are non-negative
whenever the vendor counts are; LM Studio emits both keys (with the same
per-field 0 defaults) only when the vendor reply carries a usage object,
and returns the empty usage mapping when it does not. -/
theorem C8_amended_usage_normalization (pe ec : Option Int) (u : LMStudioVendorUsage)
    (hpe : ∀ x, pe = some x → 0 ≤ x) (hec : ∀ x, ec = some x → 0 ≤ x) :
    (lookupStr (ollamaUsage pe ec) "input_tokens" = some (pe.getD 0) ∧
     lookupStr (ollamaUsage pe ec) "output_tokens" = some (ec.getD 0) ∧
     0 ≤ pe.getD 0 ∧ 0 ≤ ec.getD 0) ∧
    (lookupStr (lmstudioUsage (some u)) "input_tokens" = some (u.prompt_tokens.getD 0) ∧
     lookupStr (lmstudioUsage (some u)) "output_tokens" = some (u.completion_tokens.getD 0)) ∧
    lmstudioUsage none = [] := by
  refine ⟨⟨rfl, rfl, ?_, ?_⟩, ⟨rfl, rfl⟩, rfl⟩
  · cases pe with
    | none => decide
    | some x => exact hpe x rfl
  · cases ec with
    | none => decide
    | some x => exact hec x rfl

/-- Witness for the amended C8 at concrete vendor replies: Ollama with one
count present and one absent, LM Studio with a usage object missing its
prompt count, and LM Studio with no usage object at all. -/
theorem C8_amended_usage_normalization_witness :
    (lookupStr (ollamaUsage (some 3) none) "input_tokens" = some ((some (3 : Int)).getD 0) ∧
     lookupStr (ollamaUsage (some 3) none) "output_tokens" = some ((none : Option Int).getD 0) ∧
     0 ≤ (some (3 : Int)).getD 0 ∧ 0 ≤ (none : Option Int).getD 0) ∧
    (lookupStr (lmstudioUsage (some ⟨none, some 7⟩)) "input_tokens" =
       some ((none : Option Int).getD 0) ∧
     lookupStr (lmstudioUsage (some ⟨none, some 7⟩)) "output_tokens" =
       some ((some (7 : Int)).getD 0)) ∧
    lmstudioUsage none = [] :=
  C8_amended_usage_normalization (some 3) none ⟨none, some 7⟩
    (fun x hx => by injection hx with h; omega)
    (fun x hx => Option.noConfusion hx)

end Theorems

end AIEmpires
